import Mathlib

/-!
Verification of the libp2p chat example (gossipsub + mDNS) against its
natural-language specification.

The development shallowly embeds the repository's two source files:

* src/lib.rs — the custom gossipsub message-id function (a SipHash-1-3
  content hash of the payload bytes, rendered in decimal), the gossipsub
  configuration (10 s heartbeat, Strict validation), and the swarm builder
  as a fallible startup pipeline;
* src/main.rs — the startup sequence and the single event loop that
  multiplexes stdin lines and swarm events.

Behaviour supplied by the external libp2p library (the gossip router's
receive path, the seen-cache deduplication, the explicit-peer registry)
is modelled from the specification where noted.
-/

namespace ChatExample

/-- A byte, as stored in a gossipsub message body (Rust u8). -/
abbrev Byte := Fin 256

/-- An opaque peer identifier, compared by value. -/
abbrev PeerId := String

/-- A multiaddress, kept opaque. -/
abbrev Multiaddr := String

/-- A gossipsub message identifier, a decimal string in this program. -/
abbrev MessageId := String

/-! ### SipHash-1-3, the hash behind Rust's DefaultHasher

src/lib.rs builds the message id with std's DefaultHasher, which is
SipHash-1-3 keyed with (0, 0).  All 64-bit machine arithmetic is modelled
on Nat with explicit reduction modulo 2^64. -/

/-- Wrapping 64-bit addition. -/
def add64 (a b : Nat) : Nat := (a + b) % 2 ^ 64

/-- Bitwise 64-bit xor, reduced modulo 2^64. -/
def xor64 (a b : Nat) : Nat := (a ^^^ b) % 2 ^ 64

/-- Left rotation of a 64-bit word by r (0 < r < 64). -/
def rotl64 (x r : Nat) : Nat := ((x <<< r) ||| (x >>> (64 - r))) % 2 ^ 64

/-- The four 64-bit state words of a SipHash computation. -/
structure SipState where
  v0 : Nat
  v1 : Nat
  v2 : Nat
  v3 : Nat

/-- One SipRound as in the SipHash reference (and Rust's implementation). -/
def sipRound (s : SipState) : SipState :=
  let a0 := add64 s.v0 s.v1
  let b1 := rotl64 s.v1 13
  let c1 := xor64 b1 a0
  let a1 := rotl64 a0 32
  let a2 := add64 s.v2 s.v3
  let b3 := rotl64 s.v3 16
  let c3 := xor64 b3 a2
  let d0 := add64 a1 c3
  let d3 := rotl64 c3 21
  let e3 := xor64 d3 d0
  let d2 := add64 a2 c1
  let e1 := rotl64 c1 17
  let f1 := xor64 e1 d2
  let e2 := rotl64 d2 32
  ⟨d0, f1, e2, e3⟩

/-- Absorb one 8-byte message word: xor into v3, one SipRound (c = 1 for
SipHash-1-3), xor into v0. -/
def sipCompress (s : SipState) (m : Nat) : SipState :=
  let s1 := sipRound { s with v3 := xor64 s.v3 m }
  { s1 with v0 := xor64 s1.v0 m }

/-- A little-endian 64-bit word from (up to eight) bytes. -/
def leWord (bs : List Nat) : Nat := bs.foldr (fun b acc => b + 256 * acc) 0

/-- The full 8-byte blocks of a byte stream, as little-endian words. -/
def sipBlockWords : List Nat → List Nat
  | b0 :: b1 :: b2 :: b3 :: b4 :: b5 :: b6 :: b7 :: rest =>
      leWord [b0, b1, b2, b3, b4, b5, b6, b7] :: sipBlockWords rest
  | _ => []

/-- The trailing bytes (fewer than eight) after the full blocks. -/
def sipRemainder : List Nat → List Nat
  | _ :: _ :: _ :: _ :: _ :: _ :: _ :: _ :: rest => sipRemainder rest
  | bs => bs

/-- The final SipHash block: remaining bytes little-endian, with the total
byte count modulo 256 in the top byte. -/
def sipFinalWord (r : List Nat) (len : Nat) : Nat :=
  leWord r + len % 256 * 2 ^ 56

/-- The SipHash initial state for keys k0, k1. -/
def sipInit (k0 k1 : Nat) : SipState :=
  ⟨xor64 k0 0x736f6d6570736575, xor64 k1 0x646f72616e646f6d,
   xor64 k0 0x6c7967656e657261, xor64 k1 0x7465646279746573⟩

/-- SipHash-1-3 of a byte stream: one compression round per word, three
finalization rounds, as run by Rust's DefaultHasher. -/
def sipHash13 (k0 k1 : Nat) (bs : List Nat) : Nat :=
  let s1 := (sipBlockWords bs).foldl sipCompress (sipInit k0 k1)
  let s2 := sipCompress s1 (sipFinalWord (sipRemainder bs) bs.length)
  let s3 := sipRound (sipRound (sipRound { s2 with v2 := xor64 s2.v2 0xff }))
  (((s3.v0 ^^^ s3.v1) ^^^ s3.v2) ^^^ s3.v3) % 2 ^ 64

/-- The eight little-endian bytes of a 64-bit length value, as written by
DefaultHasher's write_usize length prefix. -/
def u64LEBytes (n : Nat) : List Nat :=
  [n % 256, n / 2 ^ 8 % 256, n / 2 ^ 16 % 256, n / 2 ^ 24 % 256,
   n / 2 ^ 32 % 256, n / 2 ^ 40 % 256, n / 2 ^ 48 % 256, n / 2 ^ 56 % 256]

/-- What `data.hash(&mut DefaultHasher::new()); s.finish()` computes in
src/lib.rs lines 60-62: SipHash-1-3 with zero keys over the slice's
length prefix followed by its bytes. -/
def defaultHasherOf (data : List Byte) : Nat :=
  sipHash13 0 0 (u64LEBytes data.length ++ data.map Fin.val)

/-- The gossipsub::Message record (src uses source, data, sequence_number,
topic; message_id_fn receives the whole record). -/
structure GossipsubMessage where
  source : Option PeerId
  data : List Byte
  sequence_number : Option Nat
  topic : String

/-- src/lib.rs lines 58-63: the custom message-id function.  It hashes
only message.data with a DefaultHasher and renders the 64-bit result in
decimal. -/
def message_id_fn (message : GossipsubMessage) : MessageId :=
  Nat.repr (defaultHasherOf message.data)

/-- The deduplicator's identify on a raw payload (spec section 4.2); in
this program it is message_id_fn's hash applied to the payload bytes. -/
def identify (payload : List Byte) : MessageId :=
  Nat.repr (defaultHasherOf payload)

/-- message_id_fn reads nothing but the data field. -/
theorem message_id_fn_eq_identify (m : GossipsubMessage) :
    message_id_fn m = identify m.data := rfl

/-- C1: the message identifier function is deterministic and depends only
on the payload bytes: byte-identical data fields give equal MessageIds,
whatever the source, sequence number, or topic. -/
theorem C1_message_id_depends_only_on_data (m1 m2 : GossipsubMessage)
    (h : m1.data = m2.data) : message_id_fn m1 = message_id_fn m2 := by
  unfold message_id_fn
  rw [h]

/-- C1 witness: two messages with the same data but different source,
sequence number and topic get the same MessageId. -/
theorem C1_message_id_depends_only_on_data_witness :
    (GossipsubMessage.mk (some ("peerA")) [104, 105] (some 1) ("topicA")).data
      = (GossipsubMessage.mk (some ("peerB")) [104, 105] (some 7) ("topicB")).data
    ∧ message_id_fn (GossipsubMessage.mk (some ("peerA")) [104, 105] (some 1) ("topicA"))
      = message_id_fn (GossipsubMessage.mk (some ("peerB")) [104, 105] (some 7) ("topicB")) :=
  ⟨rfl, C1_message_id_depends_only_on_data _ _ rfl⟩

/-- C9: the identifier function is not injective: every hash value is
below 2^64, and by pigeonhole two distinct payloads share an identifier. -/
theorem C9_message_id_not_injective :
    (∀ d : List Byte, defaultHasherOf d < 2 ^ 64) ∧
    ∃ p1 p2 : List Byte, p1 ≠ p2 ∧ identify p1 = identify p2 := by
  have hlt : ∀ d : List Byte, defaultHasherOf d < 2 ^ 64 := by
    intro d
    unfold defaultHasherOf sipHash13
    exact Nat.mod_lt _ (by norm_num)
  refine ⟨hlt, ?_⟩
  obtain ⟨p1, p2, hne, heq⟩ :=
    Finite.exists_ne_map_eq_of_infinite
      (fun d : List Byte => (⟨defaultHasherOf d, hlt d⟩ : Fin (2 ^ 64)))
  refine ⟨p1, p2, hne, ?_⟩
  have hval : defaultHasherOf p1 = defaultHasherOf p2 := congrArg Fin.val heq
  unfold identify
  rw [hval]

/-! ### Gossipsub configuration (src/lib.rs lines 66-77) -/

/-- The gossipsub validation modes offered by the library; src selects
Strict. -/
inductive ValidationMode where
  | strict
  | permissive
  | anonymous
  | noValidation
deriving DecidableEq, BEq

/-- The configuration values src/lib.rs sets on the gossipsub builder. -/
structure GossipsubConfig where
  heartbeatIntervalSecs : Nat
  validationMode : ValidationMode

/-- src/lib.rs lines 66-77: heartbeat_interval 10 s, validation_mode
Strict, and message_id_fn as the custom id function. -/
def gossipsub_config : GossipsubConfig :=
  { heartbeatIntervalSecs := 10, validationMode := ValidationMode.strict }

/-! ### The gossip router's receive path

The receive path itself lives in the external gossipsub library, not in
this repository's source; it is modelled from the specification
(sections 3, 4.2 and 4.3). -/

/-- The wire message envelope of spec section 6: topic, payload,
signature, sender. -/
structure WireMessage where
  topic : String
  payload : List Byte
  signature : List Byte
  sender : PeerId

/-- Modelled from the spec: the router state the receive path touches —
the topics this node subscribed to, the per-topic mesh view, and the
SeenCache mapping MessageId to a recency timestamp. -/
structure RouterState where
  subscribedTopics : List String
  mesh : List (String × List PeerId)
  seenCache : List (MessageId × Nat)

/-- The mesh peers recorded for a topic (empty when the topic is absent). -/
def meshPeers (st : RouterState) (topic : String) : List PeerId :=
  match st.mesh.lookup topic with
  | some ps => ps
  | none => []

/-- Modelled from the spec: the SeenCache check — an id is seen while some
cache entry for it is within the TTL window of the current time. -/
def seenB (cache : List (MessageId × Nat)) (now ttl : Nat) (id : MessageId) : Bool :=
  cache.any (fun e => e.1 == id && now ≤ e.2 + ttl)

/-- What the receive path reports: the payload delivered to the local
application (if any) and the peers the message was forwarded to. -/
structure ReceiveResult where
  delivered : Option (List Byte)
  forwardedTo : List PeerId

/-- Modelled from the spec (section 4.3 Receive): validate signature and
topic subscription, dropping silently on failure (signature enforcement
under strict validation mode); then the seen/record check; if new,
deliver to the application and forward to the topic's mesh peers other
than the sender.  Signature verification is a pluggable capability
(spec section 9). -/
def receive (cfg : GossipsubConfig) (ttl : Nat) (verify : WireMessage → Bool)
    (st : RouterState) (pfrom : PeerId) (msg : WireMessage) (now : Nat) :
    RouterState × ReceiveResult :=
  if (cfg.validationMode == ValidationMode.strict && !verify msg)
      || !(st.subscribedTopics.contains msg.topic) then
    (st, ⟨none, []⟩)
  else if seenB st.seenCache now ttl (identify msg.payload) then
    (st, ⟨none, []⟩)
  else
    ({ st with seenCache := (identify msg.payload, now) :: st.seenCache },
     ⟨some msg.payload, (meshPeers st msg.topic).filter (fun p => p != pfrom)⟩)

/-- C2: while a message's id sits unexpired in the SeenCache, receiving a
message with that id delivers nothing to the application and forwards to
no peer. -/
theorem C2_seen_message_not_redelivered (cfg : GossipsubConfig) (ttl : Nat)
    (verify : WireMessage → Bool) (st : RouterState) (pfrom : PeerId)
    (msg : WireMessage) (now : Nat)
    (h : seenB st.seenCache now ttl (identify msg.payload) = true) :
    (receive cfg ttl verify st pfrom msg now).2.delivered = none ∧
    (receive cfg ttl verify st pfrom msg now).2.forwardedTo = [] := by
  unfold receive
  rw [h]
  simp

/-- A sample wire message on the subscribed topic, sent by peerC. -/
def sampleMessage : WireMessage :=
  { topic := "test-topic", payload := [1, 2], signature := [], sender := "peerC" }

/-- A sample router state whose SeenCache holds sampleMessage's id,
recorded at time 5. -/
def sampleSeenState : RouterState :=
  { subscribedTopics := ["test-topic"], mesh := [("test-topic", ["peerA"])],
    seenCache := [(identify [1, 2], 5)] }

/-- C2 witness: with the id of payload [1, 2] recorded at time 5 and TTL
10, a receipt at time 7 is neither delivered nor forwarded. -/
theorem C2_seen_message_not_redelivered_witness :
    seenB sampleSeenState.seenCache 7 10 (identify sampleMessage.payload) = true ∧
    (receive gossipsub_config 10 (fun _ => true) sampleSeenState
      ("peerC") sampleMessage 7).2.delivered = none ∧
    (receive gossipsub_config 10 (fun _ => true) sampleSeenState
      ("peerC") sampleMessage 7).2.forwardedTo = [] := by
  have hseen : seenB sampleSeenState.seenCache 7 10 (identify sampleMessage.payload) = true := by
    simp [seenB, sampleSeenState, sampleMessage]
  exact ⟨hseen, C2_seen_message_not_redelivered gossipsub_config 10 (fun _ => true)
    sampleSeenState ("peerC") sampleMessage 7 hseen⟩

/-- C3: under the strict validation mode this program configures, a
message failing the signature check or the topic-membership check is
dropped: state unchanged, nothing delivered, nothing forwarded. -/
theorem C3_invalid_message_dropped (ttl : Nat) (verify : WireMessage → Bool)
    (st : RouterState) (pfrom : PeerId) (msg : WireMessage) (now : Nat)
    (h : verify msg = false ∨ st.subscribedTopics.contains msg.topic = false) :
    receive gossipsub_config ttl verify st pfrom msg now = (st, ⟨none, []⟩) := by
  have hc : (gossipsub_config.validationMode == ValidationMode.strict && !verify msg
      || !(st.subscribedTopics.contains msg.topic)) = true := by
    rcases h with h | h
    · rw [h]; rfl
    · rw [h, Bool.not_false, Bool.or_true]
  unfold receive
  rw [if_pos hc]

/-- A sample router state with an empty SeenCache. -/
def sampleFreshState : RouterState :=
  { subscribedTopics := ["test-topic"], mesh := [("test-topic", ["peerA"])],
    seenCache := [] }

/-- C3 witness: a message whose signature fails verification is dropped
whole. -/
theorem C3_invalid_message_dropped_witness :
    (fun _ : WireMessage => false) sampleMessage = false ∧
    receive gossipsub_config 10 (fun _ => false) sampleFreshState
      ("peerC") sampleMessage 0 = (sampleFreshState, ⟨none, []⟩) :=
  ⟨rfl, C3_invalid_message_dropped 10 (fun _ => false) sampleFreshState
    ("peerC") sampleMessage 0 (Or.inl rfl)⟩

/-- C4: the receive path never forwards a message back to the peer it
came from, in any state and for any message. -/
theorem C4_never_echo_to_sender (cfg : GossipsubConfig) (ttl : Nat)
    (verify : WireMessage → Bool) (st : RouterState) (pfrom : PeerId)
    (msg : WireMessage) (now : Nat) :
    pfrom ∉ (receive cfg ttl verify st pfrom msg now).2.forwardedTo := by
  unfold receive
  split
  · simp
  · split
    · simp
    · intro hmem
      have := List.of_mem_filter hmem
      simp at this

/-! ### The explicit-peer registry driven by mDNS events

main.rs lines 48-59 iterate the peers listed in each mDNS event and call
the library's add_explicit_peer / remove_explicit_peer; the set those
calls maintain is modelled from the specification. -/

/-- Modelled from the spec: add_explicit_peer marks a discovered peer
explicit (always-connect); the registry of explicit peers is a set of
PeerIds. -/
def add_explicit_peer (reg : List PeerId) (p : PeerId) : List PeerId :=
  if reg.contains p then reg else p :: reg

/-- Modelled from the spec: remove_explicit_peer removes the explicit
flag from a peer when discovery reports expiry. -/
def remove_explicit_peer (reg : List PeerId) (p : PeerId) : List PeerId :=
  reg.filter (fun q => q != p)

/-- main.rs lines 48-53: the Mdns::Discovered arm marks every listed peer
explicit. -/
def handleDiscovered (reg : List PeerId) (l : List (PeerId × Multiaddr)) : List PeerId :=
  l.foldl (fun r pa => add_explicit_peer r pa.1) reg

/-- main.rs lines 54-59: the Mdns::Expired arm removes the explicit flag
from every listed peer. -/
def handleExpired (reg : List PeerId) (l : List (PeerId × Multiaddr)) : List PeerId :=
  l.foldl (fun r pa => remove_explicit_peer r pa.1) reg

/-- Membership in the registry survives add_explicit_peer. -/
theorem mem_add_explicit_peer (reg : List PeerId) (p q : PeerId) (h : q ∈ reg) :
    q ∈ add_explicit_peer reg p := by
  unfold add_explicit_peer
  split
  · exact h
  · exact List.mem_cons_of_mem _ h

/-- add_explicit_peer puts its peer in the registry. -/
theorem mem_add_explicit_peer_self (reg : List PeerId) (p : PeerId) :
    p ∈ add_explicit_peer reg p := by
  unfold add_explicit_peer
  split
  · rename_i hc
    simpa using hc
  · exact List.mem_cons_self p reg

/-- Membership in the registry survives a whole Discovered batch. -/
theorem mem_handleDiscovered_of_mem (l : List (PeerId × Multiaddr))
    (reg : List PeerId) (p : PeerId) (h : p ∈ reg) : p ∈ handleDiscovered reg l := by
  induction l generalizing reg with
  | nil => exact h
  | cons a t ih => exact ih (add_explicit_peer reg a.1) (mem_add_explicit_peer reg a.1 p h)

/-- handleExpired never adds a peer: its output is drawn from its input. -/
theorem mem_of_mem_handleExpired (l : List (PeerId × Multiaddr))
    (reg : List PeerId) (p : PeerId) (h : p ∈ handleExpired reg l) : p ∈ reg := by
  induction l generalizing reg with
  | nil => exact h
  | cons a t ih =>
    have hstep := ih (remove_explicit_peer reg a.1) h
    exact List.mem_of_mem_filter hstep

/-- remove_explicit_peer removes its own peer. -/
theorem not_mem_remove_explicit_peer_self (reg : List PeerId) (p : PeerId) :
    p ∉ remove_explicit_peer reg p := by
  intro hmem
  have := List.of_mem_filter hmem
  simp at this

/-- C5: every peer listed in a Discovered event is in the explicit-peer
registry afterwards, and every peer listed in an Expired event is out of
it afterwards. -/
theorem C5_mdns_events_update_explicit_peers (reg : List PeerId)
    (l : List (PeerId × Multiaddr)) (p : PeerId) (hp : p ∈ l.map Prod.fst) :
    p ∈ handleDiscovered reg l ∧ p ∉ handleExpired reg l := by
  constructor
  · induction l generalizing reg with
    | nil => simp at hp
    | cons a t ih =>
      rw [List.map_cons] at hp
      rcases List.mem_cons.mp hp with hpa | hpt
      · exact mem_handleDiscovered_of_mem t (add_explicit_peer reg a.1) p
          (hpa ▸ mem_add_explicit_peer_self reg a.1)
      · exact ih (add_explicit_peer reg a.1) hpt
  · induction l generalizing reg with
    | nil => simp at hp
    | cons a t ih =>
      rw [List.map_cons] at hp
      intro hmem
      by_cases hpt : p ∈ t.map Prod.fst
      · exact ih (remove_explicit_peer reg a.1) hpt hmem
      · have hpa : p = a.1 := by
          rcases List.mem_cons.mp hp with h | h
          · exact h
          · exact absurd h hpt
        have hin : p ∈ remove_explicit_peer reg a.1 :=
          mem_of_mem_handleExpired t (remove_explicit_peer reg a.1) p hmem
        rw [hpa] at hin
        exact not_mem_remove_explicit_peer_self reg a.1 hin

/-- C5 witness: with registry [x] and an event listing peers a and b,
both are explicit after Discovered and b is gone after Expired. -/
theorem C5_mdns_events_update_explicit_peers_witness :
    "b" ∈ ([("a", "addr1"), ("b", "addr2")] : List (PeerId × Multiaddr)).map Prod.fst ∧
    "b" ∈ handleDiscovered ["x"] [("a", "addr1"), ("b", "addr2")] ∧
    "b" ∉ handleExpired ["x", "b"] [("a", "addr1"), ("b", "addr2")] := by
  refine ⟨by simp, ?_, ?_⟩
  · exact (C5_mdns_events_update_explicit_peers ["x"]
      [("a", "addr1"), ("b", "addr2")] "b" (by simp)).1
  · exact (C5_mdns_events_update_explicit_peers ["x", "b"]
      [("a", "addr1"), ("b", "addr2")] "b" (by simp)).2

/-! ### The event loop (src/main.rs lines 34-78)

The loop multiplexes stdin lines and swarm events.  Each ready event is
one step; the publish outcome (a libp2p call) is injected as an input.
Side effects are recorded as actions. -/

/-- The topic name main.rs creates and subscribes to. -/
def topicName : String := "test-topic"

/-- The UTF-8 bytes of a line, as line.as_bytes() yields them. -/
def strBytes (s : String) : List Byte :=
  s.toUTF8.toList.map (fun b => (⟨b.toNat % 256, Nat.mod_lt _ (by norm_num)⟩ : Byte))

/-- The ways a gossipsub publish call can fail (e.g. no peers subscribed
to the topic). -/
inductive PublishError where
  | insufficientPeers
  | other (msg : String)

/-- The debug rendering of a publish error, as logged by main.rs. -/
def publishErrorRepr : PublishError → String
  | PublishError.insufficientPeers => "InsufficientPeers"
  | PublishError.other m => m

/-- The swarm events the match in main.rs lines 47-76 distinguishes. -/
inductive SwarmEventM where
  | mdnsDiscovered (l : List (PeerId × Multiaddr))
  | mdnsExpired (l : List (PeerId × Multiaddr))
  | gossipsubMessage (propagationSource : PeerId) (messageId : MessageId) (data : List Byte)
  | newListenAddr (address : Multiaddr)
  | subscribedEvent (peer : PeerId) (topic : String)
  | otherEvent

/-- One ready input of the select loop: a full stdin line (with the
outcome the gossipsub publish call returns for it) or a swarm event. -/
inductive LoopInput where
  | stdinLine (line : String) (pubResult : Except PublishError MessageId)
  | swarmEvent (e : SwarmEventM)

/-- The externally visible actions a loop iteration performs. -/
inductive LoopAction where
  | publish (topic : String) (data : List Byte)
  | logInfo (msg : String)
deriving DecidableEq

/-- How a loop iteration ends: the Rust loop has no break or return, so
only continueLoop is ever produced, but the other outcomes are present so
that this is a statement, not a tautology. -/
inductive LoopControl where
  | continueLoop
  | breakLoop
  | returnFromMain
deriving DecidableEq

/-- The result of one loop iteration: the new explicit-peer registry, the
actions performed, and how the iteration ended. -/
structure StepOut where
  state : List PeerId
  actions : List LoopAction
  control : LoopControl

/-- src/main.rs lines 34-78: one iteration of the select loop.  A stdin
line is published to the topic (one publish per line, empty or not); a
publish error is only logged.  Mdns events update the explicit peers;
message, listen-address and subscription events are logged; every other
event is ignored.  Every branch falls through to the next iteration. -/
def loopStep (st : List PeerId) (i : LoopInput) : StepOut :=
  match i with
  | LoopInput.stdinLine line pubRes =>
    match pubRes with
    | Except.error e =>
      ⟨st, [LoopAction.publish topicName (strBytes line),
            LoopAction.logInfo ("Publish error: " ++ publishErrorRepr e)],
       LoopControl.continueLoop⟩
    | Except.ok _ =>
      ⟨st, [LoopAction.publish topicName (strBytes line)], LoopControl.continueLoop⟩
  | LoopInput.swarmEvent e =>
    match e with
    | SwarmEventM.mdnsDiscovered l =>
      ⟨handleDiscovered st l,
       l.map (fun pa => LoopAction.logInfo ("mDNS discovered a new peer: " ++ pa.1)),
       LoopControl.continueLoop⟩
    | SwarmEventM.mdnsExpired l =>
      ⟨handleExpired st l,
       l.map (fun pa => LoopAction.logInfo ("mDNS discover peer has expired: " ++ pa.1)),
       LoopControl.continueLoop⟩
    | SwarmEventM.gossipsubMessage src id _data =>
      ⟨st, [LoopAction.logInfo ("Got message with id: " ++ id ++ " from peer: " ++ src)],
       LoopControl.continueLoop⟩
    | SwarmEventM.newListenAddr a =>
      ⟨st, [LoopAction.logInfo ("Local node is listening on " ++ a)], LoopControl.continueLoop⟩
    | SwarmEventM.subscribedEvent p t =>
      ⟨st, [LoopAction.logInfo ("PeerId " ++ p ++ " subscribed to topic " ++ t)],
       LoopControl.continueLoop⟩
    | SwarmEventM.otherEvent => ⟨st, [], LoopControl.continueLoop⟩

/-- Recognizes publish actions. -/
def isPublish : LoopAction → Bool
  | LoopAction.publish _ _ => true
  | LoopAction.logInfo _ => false

/-- Every branch of the loop continues. -/
theorem loopStep_control_continue (st : List PeerId) (i : LoopInput) :
    (loopStep st i).control = LoopControl.continueLoop := by
  cases i with
  | stdinLine line pubRes => cases pubRes <;> rfl
  | swarmEvent e => cases e <;> rfl

/-- Whether a run of the loop over a list of ready inputs ever leaves the
loop (by a break or a return). -/
def loopLeaves (st : List PeerId) : List LoopInput → Bool
  | [] => false
  | i :: rest =>
    match (loopStep st i).control with
    | LoopControl.continueLoop => loopLeaves (loopStep st i).state rest
    | LoopControl.breakLoop => true
    | LoopControl.returnFromMain => true

/-- C6: each stdin line produces exactly one publish of that line's
UTF-8 bytes to the topic, whatever the publish outcome; the empty line
included. -/
theorem C6_one_publish_per_line (st : List PeerId) (line : String)
    (pubRes : Except PublishError MessageId) :
    (loopStep st (LoopInput.stdinLine line pubRes)).actions.filter isPublish
      = [LoopAction.publish topicName (strBytes line)] := by
  cases pubRes <;> simp [loopStep, isPublish]

/-- C7: a failed publish is logged and the loop continues: the iteration
ends in continueLoop, with the error surfaced as a log entry. -/
theorem C7_publish_error_nonfatal (st : List PeerId) (line : String) (e : PublishError) :
    (loopStep st (LoopInput.stdinLine line (Except.error e))).control
        = LoopControl.continueLoop ∧
    LoopAction.logInfo ("Publish error: " ++ publishErrorRepr e)
        ∈ (loopStep st (LoopInput.stdinLine line (Except.error e))).actions := by
  exact ⟨rfl, by simp [loopStep]⟩

/-- C10: after successful startup the loop never ends: every branch of
every iteration continues, so no finite run of the loop leaves it and a
normal return from main is unreachable. -/
theorem C10_loop_runs_forever (st : List PeerId) (i : LoopInput)
    (inputs : List LoopInput) :
    (loopStep st i).control = LoopControl.continueLoop ∧
    loopLeaves st inputs = false := by
  refine ⟨loopStep_control_continue st i, ?_⟩
  induction inputs generalizing st with
  | nil => rfl
  | cons a t ih =>
    rw [loopLeaves, loopStep_control_continue]
    exact ih (loopStep st a).state

/-! ### Startup and exit codes (src/main.rs lines 10-29, src/lib.rs 32-93)

main's startup is a chain of fallible steps joined by the ? operator;
the outcome of each underlying library call is injected.  On success the
program enters the infinite loop above; on any failure the error leaves
main and the Rust runtime maps it to a non-zero exit code. -/

/-- A startup error message, kept opaque. -/
abbrev StartupError := String

/-- Whether a fallible step succeeded. -/
def exOk {α : Type} : Except StartupError α → Bool
  | Except.ok _ => true
  | Except.error _ => false

/-- The outcomes of the fallible library calls made during startup, in
program order: the tcp/tls/yamux transport (lib.rs 46-50), the gossipsub
config build (lib.rs 66-77), gossipsub::Behaviour::new (lib.rs 80-83),
mdns Behaviour::new (lib.rs 85-86), the topic subscription (main.rs 23),
the listen-address parse and listen_on (main.rs 29). -/
structure StartupOutcomes where
  tcpTransport : Except StartupError Unit
  gossipsubConfigBuild : Except StartupError Unit
  behaviourNew : Except StartupError Unit
  mdnsNew : Except StartupError Unit
  subscribe : Except StartupError Bool
  parseListenAddr : Except StartupError Multiaddr
  listenOn : Except StartupError Unit

/-- src/lib.rs lines 32-93: build_swarm chains the transport, the
gossipsub config, the gossipsub behaviour and the mdns behaviour with ?,
yielding the configured swarm (represented by its gossipsub config). -/
def build_swarm (o : StartupOutcomes) : Except StartupError GossipsubConfig := do
  let _ ← o.tcpTransport
  let _ ← o.gossipsubConfigBuild
  let _ ← o.behaviourNew
  let _ ← o.mdnsNew
  pure gossipsub_config

/-- src/main.rs lines 10-29: the startup part of main — build_swarm?,
subscribe?, parse?, listen_on? — before the loop is entered. -/
def mainStartup (o : StartupOutcomes) : Except StartupError GossipsubConfig := do
  let sw ← build_swarm o
  let _ ← o.subscribe
  let _ ← o.parseListenAddr
  let _ ← o.listenOn
  pure sw

/-- The exit code the Rust runtime derives from main's Result: 0 for Ok,
1 (ExitCode::FAILURE) for Err. -/
def processExitCode : Except StartupError Unit → Nat
  | Except.ok _ => 0
  | Except.error _ => 1

/-- C8: startup succeeds exactly when every fallible step does — so each
startup failure propagates as an Err out of main — and the runtime maps
Ok to exit code 0 and every Err to the non-zero code 1. -/
theorem C8_startup_failures_propagate (o : StartupOutcomes) :
    exOk (mainStartup o)
      = (exOk o.tcpTransport && exOk o.gossipsubConfigBuild && exOk o.behaviourNew
         && exOk o.mdnsNew && exOk o.subscribe && exOk o.parseListenAddr
         && exOk o.listenOn) ∧
    processExitCode (Except.ok ()) = 0 ∧
    (∀ e : StartupError, processExitCode (Except.error e) = 1) := by
  refine ⟨?_, rfl, fun _ => rfl⟩
  obtain ⟨t, c, b, m, s, a, l⟩ := o
  cases t <;> cases c <;> cases b <;> cases m <;> cases s <;> cases a <;> cases l <;> rfl

end ChatExample
